import Mathlib

/-!
Shallow embedding of the tennis_tracking repository (src/plotting.py and
src/serve_example.py) and verification of its specification claims.

Python float arithmetic in the embedded fragments consists only of the field
operations on decimal constants, so floats are modelled as exact rationals:
every embedded value is the ideal real-number value of the source expression.
-/

namespace TennisTracking

/-- A 3D point (x, y, z) in metres, as used throughout the repository. -/
abbrev Point3 := ℚ × ℚ × ℚ

/-! ### Regulation constants from plot_court_3d (src/plotting.py, lines 31-43) -/

def COURT_X_BOUND : ℚ := 15
def COURT_Y_BOUND : ℚ := 8
def COURT_Z_BOUND : ℚ := 5
def COURT_LENGTH : ℚ := 23.77
def COURT_WIDTH_SING : ℚ := 8.23
def COURT_WIDTH_DOUB : ℚ := 10.973
def SERVICE_BOX_LENGTH : ℚ := 6.4
def NET_HEIGHT_POST : ℚ := 1.07
def NET_HEIGHT_CENTRE : ℚ := 0.91
def NET_WIDTH : ℚ := COURT_WIDTH_DOUB + 0.5

/-- Z height at which the court lines are plotted (min_h in the source). -/
def min_h : ℚ := 0

/-- ax.plot(xs, ys, z): a polyline whose i-th vertex is (xs i, ys i, z). -/
def plotLine (xs ys : List ℚ) (z : ℚ) : List Point3 :=
  List.zipWith (fun x y => (x, y, z)) xs ys

/-- ax.plot(xs, ys, zs) with per-vertex heights (used for net posts and cord). -/
def plotLine3 (xs ys zs : List ℚ) : List Point3 :=
  List.zipWith (fun x yz => (x, yz.1, yz.2)) xs (List.zipWith Prod.mk ys zs)

/-! ### Court line segments, translated one-to-one from plot_court_3d -/

def sidelineX : List ℚ := [-COURT_LENGTH / 2, COURT_LENGTH / 2]
def sidelineY : List ℚ := [-COURT_WIDTH_DOUB / 2, -COURT_WIDTH_DOUB / 2]
def sidelineY2 : List ℚ := [COURT_WIDTH_DOUB / 2, COURT_WIDTH_DOUB / 2]
def doublesSideline1 : List Point3 := plotLine sidelineX sidelineY min_h
def doublesSideline2 : List Point3 := plotLine sidelineX sidelineY2 min_h

def sing_sidelineX : List ℚ := [-COURT_LENGTH / 2, COURT_LENGTH / 2]
def sing_sidelineY : List ℚ := [-COURT_WIDTH_SING / 2, -COURT_WIDTH_SING / 2]
def sing_sidelineY2 : List ℚ := [COURT_WIDTH_SING / 2, COURT_WIDTH_SING / 2]
def singlesSideline1 : List Point3 := plotLine sing_sidelineX sing_sidelineY min_h
def singlesSideline2 : List Point3 := plotLine sing_sidelineX sing_sidelineY2 min_h

def baselineX : List ℚ := [-COURT_LENGTH / 2, -COURT_LENGTH / 2]
def baselineY : List ℚ := [-COURT_WIDTH_DOUB / 2, COURT_WIDTH_DOUB / 2]
def baselineX2 : List ℚ := [COURT_LENGTH / 2, COURT_LENGTH / 2]
def baseline1 : List Point3 := plotLine baselineX baselineY min_h
def baseline2 : List Point3 := plotLine baselineX2 baselineY min_h

/-- Net mesh polygon: verts = list(zip(x, y, z)) with
x = [0,0,0,0,0], y = [-NW/2, 0, NW/2, NW/2, -NW/2],
z = [POST, CENTRE, POST, 0, 0]  (src/plotting.py lines 87-90). -/
def netMesh : List Point3 :=
  plotLine3 [0, 0, 0, 0, 0]
    [-NET_WIDTH / 2, 0, NET_WIDTH / 2, NET_WIDTH / 2, -NET_WIDTH / 2]
    [NET_HEIGHT_POST, NET_HEIGHT_CENTRE, NET_HEIGHT_POST, 0, 0]

def netPostLeft : List Point3 :=
  plotLine3 [0, 0] [-NET_WIDTH / 2, -NET_WIDTH / 2] [0, NET_HEIGHT_POST]

def netPostRight : List Point3 :=
  plotLine3 [0, 0] [NET_WIDTH / 2, NET_WIDTH / 2] [0, NET_HEIGHT_POST]

def netCord : List Point3 :=
  plotLine3 [0, 0, 0] [-NET_WIDTH / 2, 0, NET_WIDTH / 2]
    [NET_HEIGHT_POST, NET_HEIGHT_CENTRE, NET_HEIGHT_POST]

/-! ### Extent helpers -/

def xsOf (ps : List Point3) : List ℚ := ps.map (fun p => p.1)
def ysOf (ps : List Point3) : List ℚ := ps.map (fun p => p.2.1)
def zsOf (ps : List Point3) : List ℚ := ps.map (fun p => p.2.2)

def listMax : List ℚ → ℚ
  | [] => 0
  | a :: t => t.foldl max a

def listMin : List ℚ → ℚ
  | [] => 0
  | a :: t => t.foldl min a

/-- Extent of a point list along y: max y minus min y. -/
def yExtent (ps : List Point3) : ℚ := listMax (ysOf ps) - listMin (ysOf ps)

/-- Claim C1: in the court geometry produced by plot_court_3d, the doubles
sideline y-extent exceeds the singles sideline y-extent by exactly
(10.973 - 8.23) m, the two baseline x-positions are symmetric about 0, and
the net mesh centre vertex height (0.91) is strictly below the post height
(1.07). -/
theorem court_geometry_invariants :
    yExtent (doublesSideline1 ++ doublesSideline2) -
        yExtent (singlesSideline1 ++ singlesSideline2) = 10.973 - 8.23 ∧
    listMax (xsOf baseline1) = -listMax (xsOf baseline2) ∧
    listMin (xsOf baseline1) = -listMin (xsOf baseline2) ∧
    (zsOf netMesh)[1]? = some NET_HEIGHT_CENTRE ∧
    NET_HEIGHT_CENTRE = 0.91 ∧ NET_HEIGHT_POST = 1.07 ∧
    listMax (zsOf netPostLeft) = NET_HEIGHT_POST ∧
    NET_HEIGHT_CENTRE < NET_HEIGHT_POST := by
  norm_num [yExtent, listMax, listMin, xsOf, ysOf, zsOf, doublesSideline1,
    doublesSideline2, singlesSideline1, singlesSideline2, baseline1, baseline2,
    netMesh, netPostLeft, plotLine, plotLine3, sidelineX, sidelineY, sidelineY2,
    sing_sidelineX, sing_sidelineY, sing_sidelineY2, baselineX, baselineY,
    baselineX2, COURT_LENGTH, COURT_WIDTH_SING, COURT_WIDTH_DOUB,
    NET_HEIGHT_POST, NET_HEIGHT_CENTRE, NET_WIDTH, min_h, max_def, min_def]

/-- Claim C10: the net posts, net cord endpoints and net mesh all span
y = -(10.973 + 0.5)/2 to +(10.973 + 0.5)/2, i.e. exactly 0.25 m beyond each
doubles sideline, and the mesh bottom edge sits at z = 0. -/
theorem net_wider_than_court :
    NET_WIDTH = 10.973 + 0.5 ∧
    listMin (ysOf netPostLeft) = -(10.973 + 0.5) / 2 ∧
    listMax (ysOf netPostLeft) = -(10.973 + 0.5) / 2 ∧
    listMin (ysOf netPostRight) = (10.973 + 0.5) / 2 ∧
    listMax (ysOf netPostRight) = (10.973 + 0.5) / 2 ∧
    listMin (ysOf netCord) = -(10.973 + 0.5) / 2 ∧
    listMax (ysOf netCord) = (10.973 + 0.5) / 2 ∧
    listMin (ysOf netMesh) = -(10.973 + 0.5) / 2 ∧
    listMax (ysOf netMesh) = (10.973 + 0.5) / 2 ∧
    listMin (ysOf netMesh) - listMin (ysOf doublesSideline1) = -0.25 ∧
    listMax (ysOf netMesh) - listMax (ysOf doublesSideline2) = 0.25 ∧
    (zsOf netMesh)[3]? = some 0 ∧ (zsOf netMesh)[4]? = some 0 ∧
    listMin (zsOf netMesh) = 0 := by
  norm_num [listMax, listMin, ysOf, zsOf, doublesSideline1, doublesSideline2,
    netMesh, netPostLeft, netPostRight, netCord, plotLine, plotLine3,
    sidelineX, sidelineY, sidelineY2, COURT_LENGTH, COURT_WIDTH_DOUB,
    NET_HEIGHT_POST, NET_HEIGHT_CENTRE, NET_WIDTH, min_h, max_def, min_def]

/-! ### Trajectory spline fitter (src/serve_example.py, fit_parabola3d)

fit_parabola3d calls scipy's splprep with smoothing s = 1 and degree
k = len(x) - 1.  splprep validates its degree argument (it raises unless
1 <= k <= 5 and k < m, where m is the point count); with k = m - 1 the
second condition is automatic, so the call fails exactly when m < 2
(degree below 1) or m > 6 (degree above 5).  The embedding records the
degree and smoothing handed to the spline routine and the requested
resample count. -/

inductive FitError
  /-- degree k = m - 1 falls below splprep's lower bound 1: fewer than 2
  points were supplied (the InsufficientPointsError of the spec). -/
  | insufficientPoints
  /-- degree k = m - 1 exceeds splprep's upper bound 5. -/
  | degreeTooLarge
deriving DecidableEq, Repr

structure SplineFit where
  degree : Int
  smoothing : ℚ
  npoints : Nat
deriving DecidableEq, Repr

def fit_parabola3d (pts : List Point3) (npoints : Nat) : Except FitError SplineFit :=
  if (pts.length : Int) - 1 < 1 then .error .insufficientPoints
  else if 5 < (pts.length : Int) - 1 then .error .degreeTooLarge
  else .ok ⟨(pts.length : Int) - 1, 1, npoints⟩

/-- Claim C2: whenever the trajectory spline fitter succeeds, the spline
degree it used equals the point count minus one — in particular it never
exceeds point count minus one — and the smoothing factor is the fixed
value 1. -/
theorem fit_parabola3d_degree_smoothing (pts : List Point3) (n : Nat)
    (r : SplineFit) (h : fit_parabola3d pts n = Except.ok r) :
    r.degree = (pts.length : Int) - 1 ∧ r.degree ≤ (pts.length : Int) - 1 ∧
    r.smoothing = 1 := by
  unfold fit_parabola3d at h
  split_ifs at h <;> injection h with h
  subst h
  exact ⟨rfl, le_refl _, rfl⟩

/-- Witness for C2 at a concrete 3-point input: the fit succeeds with
degree 2 = 3 - 1 and smoothing 1. -/
theorem fit_parabola3d_degree_smoothing_witness :
    fit_parabola3d [((0:ℚ), (0:ℚ), (2:ℚ)), (1, 1, 1), (2, 2, 0)] 100 =
      Except.ok ⟨2, 1, 100⟩ ∧
    ((⟨2, 1, 100⟩ : SplineFit).degree =
        (([((0:ℚ), (0:ℚ), (2:ℚ)), (1, 1, 1), (2, 2, 0)] : List Point3).length : Int) - 1 ∧
      (⟨2, 1, 100⟩ : SplineFit).degree ≤
        (([((0:ℚ), (0:ℚ), (2:ℚ)), (1, 1, 1), (2, 2, 0)] : List Point3).length : Int) - 1 ∧
      (⟨2, 1, 100⟩ : SplineFit).smoothing = 1) := by
  have h : fit_parabola3d [((0:ℚ), (0:ℚ), (2:ℚ)), (1, 1, 1), (2, 2, 0)] 100 =
      Except.ok ⟨2, 1, 100⟩ := by
    unfold fit_parabola3d
    norm_num
  exact ⟨h, fit_parabola3d_degree_smoothing _ 100 _ h⟩

/-- Claim C3: with fewer than 2 points the fitter fails with the explicit
insufficient-points error instead of returning a result. -/
theorem fit_parabola3d_insufficient (pts : List Point3) (n : Nat)
    (h : pts.length < 2) :
    fit_parabola3d pts n = Except.error FitError.insufficientPoints := by
  unfold fit_parabola3d
  have hk : (pts.length : Int) - 1 < 1 := by omega
  rw [if_pos hk]

/-- Witness for C3 at a concrete 1-point input. -/
theorem fit_parabola3d_insufficient_witness :
    ([((0:ℚ), (0:ℚ), (0:ℚ))] : List Point3).length < 2 ∧
    fit_parabola3d [((0:ℚ), (0:ℚ), (0:ℚ))] 5 =
      Except.error FitError.insufficientPoints :=
  ⟨by norm_num, fit_parabola3d_insufficient [((0:ℚ), (0:ℚ), (0:ℚ))] 5 (by norm_num)⟩

/-! ### Density field estimator (src/serve_example.py, get_density)

np.mgrid[xmin:xmax:100j, ymin:ymax:100j] samples each axis at 100 evenly
spaced values including both endpoints, i.e. linspace(xmin, xmax, 100).
The Z array is the gaussian_kde(data.T, bw_method=0.35) kernel evaluated at
every grid position; the Gaussian kernel itself is transcendental, so the
embedding records the kernel by its dataset and bandwidth factor exactly as
the source constructs it.

gaussian_kde has a failure path the claim must respect: its constructor
factorizes (Cholesky, older versions invert) the sample covariance
np.cov(dataset, bias=False) of the data and numpy raises LinAlgError
whenever that covariance is singular.  The 2x2 sample covariance is the
centered scatter matrix scaled by 1/(n-1), so (in exact arithmetic) it is
singular exactly when the scatter determinant sxx*syy - sxy^2 vanishes,
i.e. when all points are collinear - in particular for every 2-point cloud
(rank at most 1) even with positive variance on both axes.  The n = 1 and
n = 0 clouds also land in this error branch of the model (the source
raises there too: an undefined 1/(n-1) covariance, resp. min() on an empty
sequence, before any grid is returned). -/

/-- np.linspace(a, b, n): n evenly spaced samples from a to b inclusive
(for n = 1, just [a], as numpy does). -/
def linspace (a b : ℚ) (n : Nat) : List ℚ :=
  if n = 1 then [a]
  else (List.range n).map (fun i : Nat => a + (b - a) * (i : ℚ) / ((n : ℚ) - 1))

structure GaussianKDE where
  dataset : List (ℚ × ℚ)
  bw_method : ℚ
deriving DecidableEq, Repr

structure DensityGrid where
  gridX : List ℚ
  gridY : List ℚ
  kernel : GaussianKDE
deriving DecidableEq, Repr

def qsum (l : List ℚ) : ℚ := l.foldr (fun a t => a + t) 0

def meanFst (data : List (ℚ × ℚ)) : ℚ := qsum (data.map Prod.fst) / data.length

def meanSnd (data : List (ℚ × ℚ)) : ℚ := qsum (data.map Prod.snd) / data.length

/-- Centered second moment along x: (n-1) times the sample variance of the
x coordinates (the scaling does not affect vanishing or sign). -/
def scatterXX (data : List (ℚ × ℚ)) : ℚ :=
  qsum (data.map (fun p => (p.1 - meanFst data) ^ 2))

def scatterYY (data : List (ℚ × ℚ)) : ℚ :=
  qsum (data.map (fun p => (p.2 - meanSnd data) ^ 2))

def scatterXY (data : List (ℚ × ℚ)) : ℚ :=
  qsum (data.map (fun p => (p.1 - meanFst data) * (p.2 - meanSnd data)))

/-- Determinant of the centered scatter matrix; the sample covariance
np.cov(data, bias=False) is this matrix scaled by 1/(n-1), so it is
singular exactly when this determinant is 0. -/
def scatterDet (data : List (ℚ × ℚ)) : ℚ :=
  scatterXX data * scatterYY data - scatterXY data ^ 2

inductive DensityError
  /-- numpy LinAlgError raised while gaussian_kde factorizes the singular
  sample covariance of the dataset (all points collinear, in particular
  every cloud of fewer than 3 points). -/
  | singularCovariance
deriving DecidableEq, Repr

def get_density (data : List (ℚ × ℚ)) : Except DensityError DensityGrid :=
  if scatterDet data = 0 then .error .singularCovariance
  else .ok
    { gridX := linspace (listMin (data.map Prod.fst)) (listMax (data.map Prod.fst)) 100
      gridY := linspace (listMin (data.map Prod.snd)) (listMax (data.map Prod.snd)) 100
      kernel := { dataset := data, bw_method := 0.35 } }

theorem linspace_length (a b : ℚ) (n : Nat) : (linspace a b n).length = n := by
  unfold linspace
  split
  · next h => rw [h]; rfl
  · rw [List.length_map, List.length_range]

theorem linspace_getElem? (a b : ℚ) (n i : Nat) (hn : n ≠ 1) (hi : i < n) :
    (linspace a b n)[i]? = some (a + (b - a) * i / ((n : ℚ) - 1)) := by
  unfold linspace
  rw [if_neg hn, List.getElem?_map, List.getElem?_range hi]
  rfl

/-- Claim C4 counterexample: the cloud [(0,0), (1,2)] has 2 points and
positive variance on both axes (positive centered scatter on x and on y),
yet its sample covariance [[1/2, 1], [1, 2]] is singular, so gaussian_kde
raises LinAlgError and get_density returns an error instead of the grid the
claim promises for this input. -/
theorem get_density_two_point_cex :
    2 ≤ ([((0:ℚ), (0:ℚ)), (1, 2)] : List (ℚ × ℚ)).length ∧
    0 < scatterXX [((0:ℚ), (0:ℚ)), (1, 2)] ∧
    0 < scatterYY [((0:ℚ), (0:ℚ)), (1, 2)] ∧
    get_density [((0:ℚ), (0:ℚ)), (1, 2)] =
      Except.error DensityError.singularCovariance := by
  refine ⟨by norm_num, ?_, ?_, ?_⟩
  · norm_num [scatterXX, meanFst, qsum]
  · norm_num [scatterYY, meanSnd, qsum]
  · unfold get_density
    rw [if_pos]
    norm_num [scatterDet, scatterXX, scatterYY, scatterXY, meanFst, meanSnd, qsum]

/-- Claim C4 (amended): whenever the density estimator succeeds - which
requires the sample covariance of the input cloud to be nonsingular, i.e.
at least 3 points not all collinear (gaussian_kde raises LinAlgError for
every 2-point or collinear cloud, even with positive variance on both
axes) - the output grid spans exactly [min, max] of the input points on
each axis at a fixed resolution of 100 points per axis, and the density
values come from a Gaussian kernel density estimate over the input with
bandwidth factor 0.35. -/
theorem get_density_grid_spec (data : List (ℚ × ℚ)) (g : DensityGrid)
    (h : get_density data = Except.ok g) :
    g.gridX.length = 100 ∧
    g.gridY.length = 100 ∧
    g.gridX[0]? = some (listMin (data.map Prod.fst)) ∧
    g.gridX[99]? = some (listMax (data.map Prod.fst)) ∧
    g.gridY[0]? = some (listMin (data.map Prod.snd)) ∧
    g.gridY[99]? = some (listMax (data.map Prod.snd)) ∧
    g.kernel.bw_method = 0.35 ∧
    g.kernel.dataset = data := by
  unfold get_density at h
  split_ifs at h <;> injection h with h
  subst h
  dsimp only
  refine ⟨linspace_length _ _ _, linspace_length _ _ _, ?_, ?_, ?_, ?_, rfl, rfl⟩
  · rw [linspace_getElem? _ _ 100 0 (by norm_num) (by norm_num)]
    norm_num
  · rw [linspace_getElem? _ _ 100 99 (by norm_num) (by norm_num)]
    norm_num
  · rw [linspace_getElem? _ _ 100 0 (by norm_num) (by norm_num)]
    norm_num
  · rw [linspace_getElem? _ _ 100 99 (by norm_num) (by norm_num)]
    norm_num

/-- Witness for the amended C4 at the non-collinear three-point cloud
[(0,0), (1,0), (0,2)], on which the estimator succeeds. -/
theorem get_density_grid_spec_witness :
    get_density [((0:ℚ), (0:ℚ)), (1, 0), (0, 2)] =
      Except.ok
        ⟨linspace (listMin (([((0:ℚ), (0:ℚ)), (1, 0), (0, 2)] :
              List (ℚ × ℚ)).map Prod.fst))
            (listMax (([((0:ℚ), (0:ℚ)), (1, 0), (0, 2)] :
              List (ℚ × ℚ)).map Prod.fst)) 100,
          linspace (listMin (([((0:ℚ), (0:ℚ)), (1, 0), (0, 2)] :
              List (ℚ × ℚ)).map Prod.snd))
            (listMax (([((0:ℚ), (0:ℚ)), (1, 0), (0, 2)] :
              List (ℚ × ℚ)).map Prod.snd)) 100,
          ⟨[((0:ℚ), (0:ℚ)), (1, 0), (0, 2)], 0.35⟩⟩ ∧
    ((⟨linspace (listMin (([((0:ℚ), (0:ℚ)), (1, 0), (0, 2)] :
              List (ℚ × ℚ)).map Prod.fst))
            (listMax (([((0:ℚ), (0:ℚ)), (1, 0), (0, 2)] :
              List (ℚ × ℚ)).map Prod.fst)) 100,
          linspace (listMin (([((0:ℚ), (0:ℚ)), (1, 0), (0, 2)] :
              List (ℚ × ℚ)).map Prod.snd))
            (listMax (([((0:ℚ), (0:ℚ)), (1, 0), (0, 2)] :
              List (ℚ × ℚ)).map Prod.snd)) 100,
          ⟨[((0:ℚ), (0:ℚ)), (1, 0), (0, 2)], 0.35⟩⟩ : DensityGrid).gridX.length =
        100 ∧
      (⟨linspace (listMin (([((0:ℚ), (0:ℚ)), (1, 0), (0, 2)] :
              List (ℚ × ℚ)).map Prod.fst))
            (listMax (([((0:ℚ), (0:ℚ)), (1, 0), (0, 2)] :
              List (ℚ × ℚ)).map Prod.fst)) 100,
          linspace (listMin (([((0:ℚ), (0:ℚ)), (1, 0), (0, 2)] :
              List (ℚ × ℚ)).map Prod.snd))
            (listMax (([((0:ℚ), (0:ℚ)), (1, 0), (0, 2)] :
              List (ℚ × ℚ)).map Prod.snd)) 100,
          ⟨[((0:ℚ), (0:ℚ)), (1, 0), (0, 2)], 0.35⟩⟩ : DensityGrid).gridY.length =
        100 ∧
      (⟨linspace (listMin (([((0:ℚ), (0:ℚ)), (1, 0), (0, 2)] :
              List (ℚ × ℚ)).map Prod.fst))
            (listMax (([((0:ℚ), (0:ℚ)), (1, 0), (0, 2)] :
              List (ℚ × ℚ)).map Prod.fst)) 100,
          linspace (listMin (([((0:ℚ), (0:ℚ)), (1, 0), (0, 2)] :
              List (ℚ × ℚ)).map Prod.snd))
            (listMax (([((0:ℚ), (0:ℚ)), (1, 0), (0, 2)] :
              List (ℚ × ℚ)).map Prod.snd)) 100,
          ⟨[((0:ℚ), (0:ℚ)), (1, 0), (0, 2)], 0.35⟩⟩ : DensityGrid).gridX[0]? =
        some (listMin (([((0:ℚ), (0:ℚ)), (1, 0), (0, 2)] :
          List (ℚ × ℚ)).map Prod.fst)) ∧
      (⟨linspace (listMin (([((0:ℚ), (0:ℚ)), (1, 0), (0, 2)] :
              List (ℚ × ℚ)).map Prod.fst))
            (listMax (([((0:ℚ), (0:ℚ)), (1, 0), (0, 2)] :
              List (ℚ × ℚ)).map Prod.fst)) 100,
          linspace (listMin (([((0:ℚ), (0:ℚ)), (1, 0), (0, 2)] :
              List (ℚ × ℚ)).map Prod.snd))
            (listMax (([((0:ℚ), (0:ℚ)), (1, 0), (0, 2)] :
              List (ℚ × ℚ)).map Prod.snd)) 100,
          ⟨[((0:ℚ), (0:ℚ)), (1, 0), (0, 2)], 0.35⟩⟩ : DensityGrid).gridX[99]? =
        some (listMax (([((0:ℚ), (0:ℚ)), (1, 0), (0, 2)] :
          List (ℚ × ℚ)).map Prod.fst)) ∧
      (⟨linspace (listMin (([((0:ℚ), (0:ℚ)), (1, 0), (0, 2)] :
              List (ℚ × ℚ)).map Prod.fst))
            (listMax (([((0:ℚ), (0:ℚ)), (1, 0), (0, 2)] :
              List (ℚ × ℚ)).map Prod.fst)) 100,
          linspace (listMin (([((0:ℚ), (0:ℚ)), (1, 0), (0, 2)] :
              List (ℚ × ℚ)).map Prod.snd))
            (listMax (([((0:ℚ), (0:ℚ)), (1, 0), (0, 2)] :
              List (ℚ × ℚ)).map Prod.snd)) 100,
          ⟨[((0:ℚ), (0:ℚ)), (1, 0), (0, 2)], 0.35⟩⟩ : DensityGrid).gridY[0]? =
        some (listMin (([((0:ℚ), (0:ℚ)), (1, 0), (0, 2)] :
          List (ℚ × ℚ)).map Prod.snd)) ∧
      (⟨linspace (listMin (([((0:ℚ), (0:ℚ)), (1, 0), (0, 2)] :
              List (ℚ × ℚ)).map Prod.fst))
            (listMax (([((0:ℚ), (0:ℚ)), (1, 0), (0, 2)] :
              List (ℚ × ℚ)).map Prod.fst)) 100,
          linspace (listMin (([((0:ℚ), (0:ℚ)), (1, 0), (0, 2)] :
              List (ℚ × ℚ)).map Prod.snd))
            (listMax (([((0:ℚ), (0:ℚ)), (1, 0), (0, 2)] :
              List (ℚ × ℚ)).map Prod.snd)) 100,
          ⟨[((0:ℚ), (0:ℚ)), (1, 0), (0, 2)], 0.35⟩⟩ : DensityGrid).gridY[99]? =
        some (listMax (([((0:ℚ), (0:ℚ)), (1, 0), (0, 2)] :
          List (ℚ × ℚ)).map Prod.snd)) ∧
      (⟨linspace (listMin (([((0:ℚ), (0:ℚ)), (1, 0), (0, 2)] :
              List (ℚ × ℚ)).map Prod.fst))
            (listMax (([((0:ℚ), (0:ℚ)), (1, 0), (0, 2)] :
              List (ℚ × ℚ)).map Prod.fst)) 100,
          linspace (listMin (([((0:ℚ), (0:ℚ)), (1, 0), (0, 2)] :
              List (ℚ × ℚ)).map Prod.snd))
            (listMax (([((0:ℚ), (0:ℚ)), (1, 0), (0, 2)] :
              List (ℚ × ℚ)).map Prod.snd)) 100,
          ⟨[((0:ℚ), (0:ℚ)), (1, 0), (0, 2)], 0.35⟩⟩ : DensityGrid).kernel.bw_method =
        0.35 ∧
      (⟨linspace (listMin (([((0:ℚ), (0:ℚ)), (1, 0), (0, 2)] :
              List (ℚ × ℚ)).map Prod.fst))
            (listMax (([((0:ℚ), (0:ℚ)), (1, 0), (0, 2)] :
              List (ℚ × ℚ)).map Prod.fst)) 100,
          linspace (listMin (([((0:ℚ), (0:ℚ)), (1, 0), (0, 2)] :
              List (ℚ × ℚ)).map Prod.snd))
            (listMax (([((0:ℚ), (0:ℚ)), (1, 0), (0, 2)] :
              List (ℚ × ℚ)).map Prod.snd)) 100,
          ⟨[((0:ℚ), (0:ℚ)), (1, 0), (0, 2)], 0.35⟩⟩ : DensityGrid).kernel.dataset =
        [((0:ℚ), (0:ℚ)), (1, 0), (0, 2)]) := by
  have hok : get_density [((0:ℚ), (0:ℚ)), (1, 0), (0, 2)] =
      Except.ok
        ⟨linspace (listMin (([((0:ℚ), (0:ℚ)), (1, 0), (0, 2)] :
              List (ℚ × ℚ)).map Prod.fst))
            (listMax (([((0:ℚ), (0:ℚ)), (1, 0), (0, 2)] :
              List (ℚ × ℚ)).map Prod.fst)) 100,
          linspace (listMin (([((0:ℚ), (0:ℚ)), (1, 0), (0, 2)] :
              List (ℚ × ℚ)).map Prod.snd))
            (listMax (([((0:ℚ), (0:ℚ)), (1, 0), (0, 2)] :
              List (ℚ × ℚ)).map Prod.snd)) 100,
          ⟨[((0:ℚ), (0:ℚ)), (1, 0), (0, 2)], 0.35⟩⟩ := by
    unfold get_density
    rw [if_neg]
    norm_num [scatterDet, scatterXX, scatterYY, scatterXY, meanFst, meanSnd, qsum]
  exact ⟨hok, get_density_grid_spec _ _ hok⟩

/-! ### Colour ramp builder (src/serve_example.py, cmap_alpha)

The source runs cmap = ListedColormap(max_colour, min_colour).  In
matplotlib, ListedColormap(colors, name) takes the colour list first and a
*name* second: max_colour is the colour data and min_colour merely becomes
the name string, which the final ListedColormap(alpha_cmap) result does not
even retain.  With N omitted, the size is N = len(colors): the length of a
colour name string, or 4 for an RGBA tuple.  ListedColormap broadcasts
to_rgba(colors) (a single RGBA row) over all N lut rows, so
cmap(np.arange(cmap.N)) yields N identical copies of the colour; the alpha
column is then overwritten with np.linspace(0, 1, N). -/

abbrev RGBA := ℚ × ℚ × ℚ × ℚ

/-- A colour specification as the spec contract allows: a matplotlib named
colour or an RGBA (0-1) tuple. -/
inductive ColorSpec
  | named (s : String)
  | rgba (c : RGBA)
deriving DecidableEq, Repr

/-- The matplotlib named-colour table, restricted to the colours this
development mentions. -/
def namedColorTable (s : String) : Option RGBA :=
  if s = "teal" then some (0, 128/255, 128/255, 1)
  else if s = "orange" then some (1, 165/255, 0, 1)
  else if s = "blue" then some (0, 0, 1, 1)
  else if s = "pink" then some (1, 192/255, 203/255, 1)
  else if s = "r" then some (1, 0, 0, 1)
  else none

/-- matplotlib colors.to_rgba on a colour specification. -/
def to_rgba : ColorSpec → Option RGBA
  | .named s => namedColorTable s
  | .rgba c => some c

/-- Python len() of the colour argument, which ListedColormap uses as N when
N is not given: string length for a name, 4 for an RGBA 4-tuple. -/
def pyLen : ColorSpec → Nat
  | .named s => s.length
  | .rgba _ => 4

inductive ColorError
  /-- to_rgba rejects the colour specification (InvalidColorError). -/
  | invalidColor
deriving DecidableEq, Repr

/-- Overwrite the alpha channel of an RGBA entry (alpha_cmap[:, -1] = ...). -/
def setAlpha (c : RGBA) (a : ℚ) : RGBA := (c.1, c.2.1, c.2.2.1, a)

def alphaOf (c : RGBA) : ℚ := c.2.2.2
def rgbOf (c : RGBA) : ℚ × ℚ × ℚ := (c.1, c.2.1, c.2.2.1)

def cmap_alpha (min_colour max_colour : ColorSpec) :
    Except ColorError (List RGBA) :=
  match to_rgba max_colour with
  | none => .error .invalidColor
  | some base => .ok ((linspace 0 1 (pyLen max_colour)).map (setAlpha base))

theorem linspace_one_pt : linspace 0 1 1 = [0] := by
  norm_num [linspace]

theorem linspace_four : linspace 0 1 4 = [0, 1/3, 2/3, 1] := by
  norm_num [linspace, List.range_succ]

theorem cmap_alpha_teal :
    cmap_alpha (ColorSpec.named "blue") (ColorSpec.named "teal") =
      Except.ok [(0, 128/255, 128/255, 0), (0, 128/255, 128/255, 1/3),
        (0, 128/255, 128/255, 2/3), (0, 128/255, 128/255, 1)] := by
  have hb : to_rgba (ColorSpec.named "teal") = some (0, 128/255, 128/255, 1) := by
    norm_num [to_rgba, namedColorTable]
  have hn : pyLen (ColorSpec.named "teal") = 4 := rfl
  unfold cmap_alpha
  rw [hb, hn, linspace_four]
  norm_num [setAlpha]

/-- Claim C7 counterexample: "r" is a valid single-character named colour, so
ListedColormap builds a one-entry colormap (N = len("r") = 1) and
np.linspace(0, 1, 1) = [0]: the last (only) ramp entry has alpha 0, which is
strictly below the 1 the claim requires. -/
theorem cmap_alpha_last_alpha_cex :
    cmap_alpha (ColorSpec.named "blue") (ColorSpec.named "r") =
      Except.ok [(1, 0, 0, 0)] ∧
    alphaOf (1, 0, 0, 0) < 1 := by
  constructor
  · have hb : to_rgba (ColorSpec.named "r") = some (1, 0, 0, 1) := by
      show namedColorTable "r" = some (1, 0, 0, 1)
      unfold namedColorTable
      rw [if_neg (by decide), if_neg (by decide), if_neg (by decide),
        if_neg (by decide), if_pos rfl]
    have hn : pyLen (ColorSpec.named "r") = 1 := rfl
    unfold cmap_alpha
    rw [hb, hn, linspace_one_pt]
    norm_num [setAlpha]
  · norm_num [alphaOf]

/-- Claim C7 (amended): whenever the builder succeeds and the colormap has at
least two entries (every RGBA tuple and every named colour of two or more
characters), the alpha of entry 0 is exactly 0, the alpha of the last entry
(index N-1) is exactly 1, and the alphas are monotonically non-decreasing;
only the last-entry value fails for one-entry colormaps (single-character
colour names), where the sole alpha is 0. -/
theorem cmap_alpha_alpha_ramp (minc maxc : ColorSpec) (l : List RGBA)
    (h : cmap_alpha minc maxc = Except.ok l) (h2 : 2 ≤ pyLen maxc) :
    (l.map alphaOf)[0]? = some 0 ∧
    (l.map alphaOf)[pyLen maxc - 1]? = some 1 ∧
    ∀ i j : Nat, i < j → j < l.length →
      (l.map alphaOf).getD i 0 ≤ (l.map alphaOf).getD j 0 := by
  unfold cmap_alpha at h
  split at h
  · exact absurd h (by simp)
  · next base heq =>
    injection h with h
    subst h
    have hne1 : pyLen maxc ≠ 1 := by omega
    have hcast : (2:ℚ) ≤ (pyLen maxc : ℚ) := by exact_mod_cast h2
    have hpos : (0:ℚ) < (pyLen maxc : ℚ) - 1 := by linarith
    have hmap : ((linspace 0 1 (pyLen maxc)).map (setAlpha base)).map alphaOf =
        linspace 0 1 (pyLen maxc) := by
      rw [List.map_map]
      have hco : ∀ b : RGBA, (alphaOf ∘ setAlpha b) = fun a : ℚ => a := by
        intro b; funext a; rfl
      rw [hco, List.map_id']
    rw [hmap]
    refine ⟨?_, ?_, ?_⟩
    · rw [linspace_getElem? 0 1 (pyLen maxc) 0 hne1 (by omega)]
      norm_num
    · rw [linspace_getElem? 0 1 (pyLen maxc) (pyLen maxc - 1) hne1 (by omega)]
      have hc : ((pyLen maxc - 1 : ℕ) : ℚ) = (pyLen maxc : ℚ) - 1 := by
        push_cast [Nat.cast_sub (by omega : 1 ≤ pyLen maxc)]
        ring
      rw [hc]
      rw [Option.some_inj]
      field_simp
    · intro i j hij hjlen
      rw [List.length_map, linspace_length] at hjlen
      rw [List.getD_eq_getElem?_getD, List.getD_eq_getElem?_getD,
        linspace_getElem? 0 1 (pyLen maxc) i hne1 (by omega),
        linspace_getElem? 0 1 (pyLen maxc) j hne1 hjlen]
      simp only [Option.getD_some]
      have hij' : (i:ℚ) ≤ (j:ℚ) := by exact_mod_cast le_of_lt hij
      gcongr

/-- Witness for the amended C7 at the concrete pair used by the driving
script: min colour the court RGBA tuple, max colour teal. -/
theorem cmap_alpha_alpha_ramp_witness :
    cmap_alpha (ColorSpec.rgba (0.603, 0.184, 0.035, 1)) (ColorSpec.named "teal") =
      Except.ok [(0, 128/255, 128/255, 0), (0, 128/255, 128/255, 1/3),
        (0, 128/255, 128/255, 2/3), (0, 128/255, 128/255, 1)] ∧
    2 ≤ pyLen (ColorSpec.named "teal") ∧
    ((([(((0:ℚ), (128:ℚ)/255, (128:ℚ)/255, (0:ℚ))), (0, 128/255, 128/255, 1/3),
          (0, 128/255, 128/255, 2/3), (0, 128/255, 128/255, 1)] :
        List RGBA).map alphaOf)[0]? = some 0 ∧
      (([(((0:ℚ), (128:ℚ)/255, (128:ℚ)/255, (0:ℚ))), (0, 128/255, 128/255, 1/3),
          (0, 128/255, 128/255, 2/3), (0, 128/255, 128/255, 1)] :
        List RGBA).map alphaOf)[pyLen (ColorSpec.named "teal") - 1]? = some 1 ∧
      ∀ i j : Nat, i < j →
        j < ([(((0:ℚ), (128:ℚ)/255, (128:ℚ)/255, (0:ℚ))), (0, 128/255, 128/255, 1/3),
          (0, 128/255, 128/255, 2/3), (0, 128/255, 128/255, 1)] : List RGBA).length →
        (([(((0:ℚ), (128:ℚ)/255, (128:ℚ)/255, (0:ℚ))), (0, 128/255, 128/255, 1/3),
          (0, 128/255, 128/255, 2/3), (0, 128/255, 128/255, 1)] :
          List RGBA).map alphaOf).getD i 0 ≤
        (([(((0:ℚ), (128:ℚ)/255, (128:ℚ)/255, (0:ℚ))), (0, 128/255, 128/255, 1/3),
          (0, 128/255, 128/255, 2/3), (0, 128/255, 128/255, 1)] :
          List RGBA).map alphaOf).getD j 0) := by
  have hok : cmap_alpha (ColorSpec.rgba (0.603, 0.184, 0.035, 1))
      (ColorSpec.named "teal") =
      Except.ok [(0, 128/255, 128/255, 0), (0, 128/255, 128/255, 1/3),
        (0, 128/255, 128/255, 2/3), (0, 128/255, 128/255, 1)] := by
    have hb : to_rgba (ColorSpec.named "teal") = some (0, 128/255, 128/255, 1) := by
      norm_num [to_rgba, namedColorTable]
    have hn : pyLen (ColorSpec.named "teal") = 4 := rfl
    unfold cmap_alpha
    rw [hb, hn, linspace_four]
    norm_num [setAlpha]
  exact ⟨hok, by decide,
    cmap_alpha_alpha_ramp (ColorSpec.rgba (0.603, 0.184, 0.035, 1))
      (ColorSpec.named "teal") _ hok (by decide)⟩

/-- Claim C8 (code bug): ListedColormap(max_colour, min_colour) passes the
min colour into the *name* parameter, so the builder never interpolates
between the two colours: with min = blue and max = teal all four entries
carry the RGB of teal, no entry carries (or approaches) blue, and replacing
the min colour by a completely different colour leaves the output unchanged. -/
theorem cmap_alpha_no_interpolation :
    cmap_alpha (ColorSpec.named "blue") (ColorSpec.named "teal") =
      Except.ok [(0, 128/255, 128/255, 0), (0, 128/255, 128/255, 1/3),
        (0, 128/255, 128/255, 2/3), (0, 128/255, 128/255, 1)] ∧
    rgbOf (0, 128/255, 128/255, (0:ℚ)) = (0, 128/255, 128/255) ∧
    rgbOf (0, 128/255, 128/255, (1:ℚ)/3) = (0, 128/255, 128/255) ∧
    rgbOf (0, 128/255, 128/255, (2:ℚ)/3) = (0, 128/255, 128/255) ∧
    rgbOf (0, 128/255, 128/255, (1:ℚ)) = (0, 128/255, 128/255) ∧
    cmap_alpha (ColorSpec.named "blue") (ColorSpec.named "teal") =
      cmap_alpha (ColorSpec.named "pink") (ColorSpec.named "teal") :=
  ⟨cmap_alpha_teal, rfl, rfl, rfl, rfl, rfl⟩

/-! ### Planar text projector (src/plotting.py, text3d)

text3d builds trans = Affine2D().rotate(angle).translate(xy1[0], xy1[1]),
applies it to the glyph path of TextPath((0, 0), s), and embeds the patch at
depth z1 along zdir via art3d.pathpatch_2d_to_3d.  Affine2D.rotate and
Affine2D.translate each premultiply their own 3x3 matrix onto the current
one, so the accumulated matrix is T(xy1) * R(angle): vertices are rotated
first, translated second.  The rotation matrix is parameterized here by
(c, s) = (cos angle, sin angle); angle = 0 gives exactly (1, 0). -/

/-- An affine 2D transform, the top two rows of the matplotlib 3x3 matrix
[[m00, m01, m02], [m10, m11, m12], [0, 0, 1]]. -/
structure Mat3 where
  m00 : ℚ
  m01 : ℚ
  m02 : ℚ
  m10 : ℚ
  m11 : ℚ
  m12 : ℚ
deriving DecidableEq, Repr

def Mat3.id : Mat3 := ⟨1, 0, 0, 0, 1, 0⟩

/-- Matrix product A * B (as a map: apply B first, then A). -/
def Mat3.comp (A B : Mat3) : Mat3 :=
  ⟨A.m00 * B.m00 + A.m01 * B.m10, A.m00 * B.m01 + A.m01 * B.m11,
   A.m00 * B.m02 + A.m01 * B.m12 + A.m02,
   A.m10 * B.m00 + A.m11 * B.m10, A.m10 * B.m01 + A.m11 * B.m11,
   A.m10 * B.m02 + A.m11 * B.m12 + A.m12⟩

def Mat3.apply (A : Mat3) (p : ℚ × ℚ) : ℚ × ℚ :=
  (A.m00 * p.1 + A.m01 * p.2 + A.m02, A.m10 * p.1 + A.m11 * p.2 + A.m12)

def rotationMatrix (c s : ℚ) : Mat3 := ⟨c, -s, 0, s, c, 0⟩

def translationMatrix (tx ty : ℚ) : Mat3 := ⟨1, 0, tx, 0, 1, ty⟩

/-- Affine2D().rotate(angle).translate(tx, ty): starting from the identity,
rotate premultiplies R, then translate premultiplies T, giving T * R * I. -/
def text3dTransform (c s tx ty : ℚ) : Mat3 :=
  (translationMatrix tx ty).comp ((rotationMatrix c s).comp Mat3.id)

/-- The zdir dispatch at the head of text3d: which two coordinates of xyz
form the in-plane position xy1 and which is the depth z1.  Every designator
other than "y" and "x" falls into the final else branch, i.e. is treated as
"z". -/
def zdirSplit (zdir : String) (xyz : Point3) : (ℚ × ℚ) × ℚ :=
  if zdir = "y" then ((xyz.1, xyz.2.2), xyz.2.1)
  else if zdir = "x" then ((xyz.2.1, xyz.2.2), xyz.1)
  else ((xyz.1, xyz.2.1), xyz.2.2)

inductive TextError
  /-- the InvalidAxisError postulated by the spec; the source never raises
  anything of the kind for a bad designator. -/
  | invalidAxis
  /-- the Python IndexError raised by zdir[0] in art3d.juggle_axes when the
  designator is the empty string. -/
  | indexError
deriving DecidableEq, Repr

/-- art3d.rotate_axes: if zdir == x / -x / y / -y, rotate; else identity. -/
def rotate_axes (x y z : ℚ) (zdir : String) : Point3 :=
  if zdir = "x" then (y, z, x)
  else if zdir = "-x" then (z, x, y)
  else if zdir = "y" then (z, x, y)
  else if zdir = "-y" then (y, z, x)
  else (x, y, z)

/-- art3d.juggle_axes, reached through pathpatch_2d_to_3d: places a
transformed 2D vertex at depth z along zdir.  After the "x" and "y" checks
the source tests zdir[0] == the minus character and routes to rotate_axes
(raising IndexError for the empty designator); every other designator
falls through to the "z" case. -/
def juggle_axes (x y z : ℚ) (zdir : String) : Except TextError Point3 :=
  if zdir = "x" then .ok (z, x, y)
  else if zdir = "y" then .ok (x, z, y)
  else if zdir = "" then .error .indexError
  else if zdir.front = '-' then .ok (rotate_axes x y z zdir)
  else .ok (x, y, z)

structure Patch3D where
  verts : List Point3
deriving DecidableEq, Repr

/-- The per-vertex loop of Patch3D.set_3d_properties: juggle_axes applied
to each transformed vertex in order, propagating the first raised error. -/
def juggleAll (verts : List (ℚ × ℚ)) (z : ℚ) (zdir : String) :
    Except TextError (List Point3) :=
  match verts with
  | [] => .ok []
  | q :: t =>
    match juggle_axes q.1 q.2 z zdir with
    | .error e => .error e
    | .ok p =>
      match juggleAll t z zdir with
      | .error e => .error e
      | .ok ps => .ok (p :: ps)

/-- text3d: glyph is the vertex list of the text path anchored at the
origin; each glyph vertex is transformed by the affine map and embedded at
depth z1 along zdir through the juggle_axes loop. -/
def text3d (xyz : Point3) (glyph : List (ℚ × ℚ)) (zdir : String) (c s : ℚ) :
    Except TextError Patch3D :=
  match juggleAll (glyph.map (text3dTransform c s (zdirSplit zdir xyz).1.1
      (zdirSplit zdir xyz).1.2).apply) (zdirSplit zdir xyz).2 zdir with
  | .error e => .error e
  | .ok verts => .ok ⟨verts⟩

def isOkPatch : Except TextError Patch3D → Bool
  | .ok _ => true
  | .error _ => false

/-- Claim C5: the glyph path is transformed by rotation first and
translation second (the accumulated matrix is translation * rotation), so
with the identity rotation (angle 0, i.e. cos = 1 and sin = 0) the glyph
anchor (0, 0) is projected exactly onto the in-plane anchor coordinates
selected by the zdir dispatch. -/
theorem text3d_rotate_then_translate (c s tx ty : ℚ) (p : ℚ × ℚ)
    (zdir : String) (xyz : Point3) :
    (text3dTransform c s tx ty).apply p =
      (translationMatrix tx ty).apply ((rotationMatrix c s).apply p) ∧
    (text3dTransform 1 0 (zdirSplit zdir xyz).1.1
        (zdirSplit zdir xyz).1.2).apply (0, 0) = (zdirSplit zdir xyz).1 := by
  constructor
  · simp only [text3dTransform, Mat3.comp, Mat3.apply, Mat3.id,
      rotationMatrix, translationMatrix, Prod.mk.injEq]
    constructor <;> ring
  · rw [Prod.ext_iff]
    simp only [text3dTransform, Mat3.comp, Mat3.apply, Mat3.id,
      rotationMatrix, translationMatrix]
    constructor <;> ring_nf <;> rfl

/-- Claim C6 counterexample: "w" is not a recognized axis designator, yet
the projector reports no error: the dispatch falls through to the z branch
and a patch is produced (a one-vertex glyph at the origin with anchor
(1, 2, 3) comes back as the vertex (1, 2, 3)). -/
theorem text3d_invalid_axis_cex :
    text3d (1, 2, 3) [(0, 0)] "w" 1 0 = Except.ok ⟨[(1, 2, 3)]⟩ := by
  have h1 : zdirSplit "w" ((1 : ℚ), (2 : ℚ), (3 : ℚ)) = ((1, 2), 3) := rfl
  have hv : ([((0 : ℚ), (0 : ℚ))].map (text3dTransform 1 0 1 2).apply) =
      [((1 : ℚ), (2 : ℚ))] := by
    simp only [List.map_cons, List.map_nil, List.cons.injEq, and_true,
      text3dTransform, Mat3.comp, Mat3.apply, Mat3.id, rotationMatrix,
      translationMatrix, Prod.mk.injEq]
    norm_num
  have hall : juggleAll [((1 : ℚ), (2 : ℚ))] 3 "w" =
      Except.ok [((1 : ℚ), (2 : ℚ), (3 : ℚ))] := rfl
  unfold text3d
  rw [h1]
  dsimp only
  rw [hv, hall]

/-- Claim C6 (amended): no designator triggers an InvalidAxisError, because
no such error exists in the code; a depth-axis designator that is neither
"x" nor "y", is nonempty, and does not begin with the minus character that
routes juggle_axes into rotate_axes - for example "w" - is handled exactly
like "z": the projector returns a patch identical to the "z" embedding and
no error. -/
theorem text3d_unrecognized_axis (zdir : String) (xyz : Point3)
    (glyph : List (ℚ × ℚ)) (c s : ℚ) (hx : zdir ≠ "x") (hy : zdir ≠ "y")
    (he : zdir ≠ "") (hm : zdir.front ≠ '-') :
    text3d xyz glyph zdir c s = text3d xyz glyph "z" c s ∧
    isOkPatch (text3d xyz glyph zdir c s) = true := by
  have hsplit : zdirSplit zdir xyz = zdirSplit "z" xyz := by
    unfold zdirSplit
    rw [if_neg hy, if_neg hx, if_neg (by decide : ¬("z" = "y")),
      if_neg (by decide : ¬("z" = "x"))]
  have hjug : ∀ x y z : ℚ, juggle_axes x y z zdir = Except.ok (x, y, z) := by
    intro x y z
    unfold juggle_axes
    rw [if_neg hx, if_neg hy, if_neg he, if_neg hm]
  have hjugz : ∀ x y z : ℚ, juggle_axes x y z "z" = Except.ok (x, y, z) := by
    intro x y z
    unfold juggle_axes
    rw [if_neg (by decide : ¬("z" = "x")), if_neg (by decide : ¬("z" = "y")),
      if_neg (by decide : ¬("z" = "")), if_neg (by decide : ¬("z".front = '-'))]
  have hall : ∀ (l : List (ℚ × ℚ)) (z : ℚ),
      juggleAll l z zdir = Except.ok (l.map (fun q => (q.1, q.2, z))) ∧
      juggleAll l z "z" = Except.ok (l.map (fun q => (q.1, q.2, z))) := by
    intro l z
    induction l with
    | nil => exact ⟨rfl, rfl⟩
    | cons q t ih =>
      constructor
      · unfold juggleAll
        rw [hjug, ih.1]
        rfl
      · unfold juggleAll
        rw [hjugz, ih.2]
        rfl
  constructor
  · unfold text3d
    rw [hsplit, (hall _ _).1, (hall _ _).2]
  · unfold text3d
    rw [hsplit, (hall _ _).1]
    rfl

/-- Witness for the amended C6 at the concrete designator "w". -/
theorem text3d_unrecognized_axis_witness :
    ("w" ≠ "x") ∧ ("w" ≠ "y") ∧ ("w" ≠ "") ∧ ("w".front ≠ '-') ∧
    (text3d ((1 : ℚ), (2 : ℚ), (3 : ℚ)) [(0, 0)] "w" 1 0 =
        text3d ((1 : ℚ), (2 : ℚ), (3 : ℚ)) [(0, 0)] "z" 1 0 ∧
      isOkPatch (text3d ((1 : ℚ), (2 : ℚ), (3 : ℚ)) [(0, 0)] "w" 1 0) = true) :=
  ⟨by decide, by decide, by decide, by decide,
    text3d_unrecognized_axis "w" ((1 : ℚ), (2 : ℚ), (3 : ℚ)) [(0, 0)] 1 0
      (by decide) (by decide) (by decide) (by decide)⟩

/-! ### Two-segment serve arc (src/serve_example.py, lines 154-162)

The ace loop fits the descending phase through tracking rows 0..2 and the
ascending phase through rows 2.. (3 rows each for a 5-row serve), then
concatenates the two resampled 100-point curves.  For m = 3 points
fit_parabola3d calls splprep with degree k = m - 1 = 2 and smoothing s = 1,
and splprep assigns cumulative chord-length parameters normalized to
u0 = 0 < u1 < u2 = 1 (strictly increasing whenever consecutive points are
distinct).  With the minimal knot vector (no interior knots) the space of
degree-2 splines on [0, 1] is exactly the quadratics, so the initial
least-squares solution on 3 points is the unique parametric quadratic
through them, with residual 0 <= s = 1, which FITPACK accepts: the fitted
curve is the Lagrange interpolant at the chord parameters, and splev
evaluates it at the npoints values of linspace(0, 1, npoints).  The
normalized interior chord parameter enters the embedding as an explicit
argument u1 with 0 < u1 < 1. -/

/-- Quadratic Lagrange interpolant through (0, p0), (u1, p1), (1, p2),
evaluated at t. -/
def lagrange3 (u1 p0 p1 p2 t : ℚ) : ℚ :=
  p0 * ((t - u1) * (t - 1)) / ((0 - u1) * (0 - 1)) +
  p1 * ((t - 0) * (t - 1)) / ((u1 - 0) * (u1 - 1)) +
  p2 * ((t - 0) * (t - u1)) / ((1 - 0) * (1 - u1))

/-- splev on the fitted parametric quadratic: componentwise interpolation. -/
def splev3 (u1 : ℚ) (P0 P1 P2 : Point3) (t : ℚ) : Point3 :=
  (lagrange3 u1 P0.1 P1.1 P2.1 t,
   lagrange3 u1 P0.2.1 P1.2.1 P2.2.1 t,
   lagrange3 u1 P0.2.2 P1.2.2 P2.2.2 t)

/-- fit_parabola3d on a 3-point segment, resampled at npoints evenly spaced
parameter values in [0, 1] (u_fine = np.linspace(0, 1, npoints)). -/
def fit_parabola3d_curve3 (u1 : ℚ) (P0 P1 P2 : Point3) (npoints : Nat) :
    List Point3 :=
  (linspace 0 1 npoints).map (splev3 u1 P0 P1 P2)

theorem lagrange3_at_zero (u1 p0 p1 p2 : ℚ) (h0 : u1 ≠ 0) (h1 : u1 ≠ 1) :
    lagrange3 u1 p0 p1 p2 0 = p0 := by
  unfold lagrange3
  have hs1 : (1 : ℚ) - u1 ≠ 0 := fun hc => h1 (by linarith)
  field_simp

theorem lagrange3_at_one (u1 p0 p1 p2 : ℚ) (h0 : u1 ≠ 0) (h1 : u1 ≠ 1) :
    lagrange3 u1 p0 p1 p2 1 = p2 := by
  unfold lagrange3
  have hs1 : (1 : ℚ) - u1 ≠ 0 := fun hc => h1 (by linarith)
  field_simp

theorem splev3_at_zero (u1 : ℚ) (P0 P1 P2 : Point3) (h0 : u1 ≠ 0)
    (h1 : u1 ≠ 1) : splev3 u1 P0 P1 P2 0 = P0 := by
  unfold splev3
  rw [lagrange3_at_zero _ _ _ _ h0 h1, lagrange3_at_zero _ _ _ _ h0 h1,
    lagrange3_at_zero _ _ _ _ h0 h1]

theorem splev3_at_one (u1 : ℚ) (P0 P1 P2 : Point3) (h0 : u1 ≠ 0)
    (h1 : u1 ≠ 1) : splev3 u1 P0 P1 P2 1 = P2 := by
  unfold splev3
  rw [lagrange3_at_one _ _ _ _ h0 h1, lagrange3_at_one _ _ _ _ h0 h1,
    lagrange3_at_one _ _ _ _ h0 h1]

theorem fit_curve3_length (u1 : ℚ) (P0 P1 P2 : Point3) (n : Nat) :
    (fit_parabola3d_curve3 u1 P0 P1 P2 n).length = n := by
  unfold fit_parabola3d_curve3
  rw [List.length_map, linspace_length]

theorem fit_curve3_last (u1 : ℚ) (P0 P1 P2 : Point3) (h0 : u1 ≠ 0)
    (h1 : u1 ≠ 1) :
    (fit_parabola3d_curve3 u1 P0 P1 P2 100)[99]? = some P2 := by
  unfold fit_parabola3d_curve3
  rw [List.getElem?_map,
    linspace_getElem? 0 1 100 99 (by norm_num) (by norm_num)]
  have ht : (0 : ℚ) + (1 - 0) * ((99 : ℕ) : ℚ) / (((100 : ℕ) : ℚ) - 1) = 1 := by
    push_cast
    norm_num
  rw [ht, Option.map_some', splev3_at_one _ _ _ _ h0 h1]

theorem fit_curve3_head (u1 : ℚ) (P0 P1 P2 : Point3) (h0 : u1 ≠ 0)
    (h1 : u1 ≠ 1) :
    (fit_parabola3d_curve3 u1 P0 P1 P2 100)[0]? = some P0 := by
  unfold fit_parabola3d_curve3
  rw [List.getElem?_map,
    linspace_getElem? 0 1 100 0 (by norm_num) (by norm_num)]
  have ht : (0 : ℚ) + (1 - 0) * ((0 : ℕ) : ℚ) / (((100 : ℕ) : ℚ) - 1) = 0 := by
    push_cast
    norm_num
  rw [ht, Option.map_some', splev3_at_zero _ _ _ _ h0 h1]

/-- Claim C9: splitting a 5-point serve into the descending rows 0..2 and
the ascending rows 2..4 (sharing the bounce point q2 at index 2), fitting
each 3-point segment independently and concatenating the 100-point
resampled outputs yields a curve whose point at the shared junction (the
last point of the descending segment, index 99, and the first point of the
ascending segment, index 100 of the concatenation) is q2 in both segments:
the two values agree to within 1e-9 in every coordinate (they are exactly
equal in exact arithmetic). -/
theorem serve_segments_junction (q0 q1 q2 q3 q4 : Point3) (a b : ℚ)
    (ha0 : 0 < a) (ha1 : a < 1) (hb0 : 0 < b) (hb1 : b < 1) :
    (fit_parabola3d_curve3 a q0 q1 q2 100)[99]? = some q2 ∧
    (fit_parabola3d_curve3 b q2 q3 q4 100)[0]? = some q2 ∧
    (fit_parabola3d_curve3 a q0 q1 q2 100 ++
      fit_parabola3d_curve3 b q2 q3 q4 100)[99]? = some q2 ∧
    (fit_parabola3d_curve3 a q0 q1 q2 100 ++
      fit_parabola3d_curve3 b q2 q3 q4 100)[100]? = some q2 ∧
    |(((fit_parabola3d_curve3 a q0 q1 q2 100)[99]?).getD (0, 0, 0)).1 -
      (((fit_parabola3d_curve3 b q2 q3 q4 100)[0]?).getD (0, 0, 0)).1| ≤
        1 / 1000000000 ∧
    |(((fit_parabola3d_curve3 a q0 q1 q2 100)[99]?).getD (0, 0, 0)).2.1 -
      (((fit_parabola3d_curve3 b q2 q3 q4 100)[0]?).getD (0, 0, 0)).2.1| ≤
        1 / 1000000000 ∧
    |(((fit_parabola3d_curve3 a q0 q1 q2 100)[99]?).getD (0, 0, 0)).2.2 -
      (((fit_parabola3d_curve3 b q2 q3 q4 100)[0]?).getD (0, 0, 0)).2.2| ≤
        1 / 1000000000 := by
  have ha0' : a ≠ 0 := ne_of_gt ha0
  have ha1' : a ≠ 1 := ne_of_lt ha1
  have hb0' : b ≠ 0 := ne_of_gt hb0
  have hb1' : b ≠ 1 := ne_of_lt hb1
  have hdown : (fit_parabola3d_curve3 a q0 q1 q2 100)[99]? = some q2 :=
    fit_curve3_last a q0 q1 q2 ha0' ha1'
  have hup : (fit_parabola3d_curve3 b q2 q3 q4 100)[0]? = some q2 :=
    fit_curve3_head b q2 q3 q4 hb0' hb1'
  have hlen : (fit_parabola3d_curve3 a q0 q1 q2 100).length = 100 :=
    fit_curve3_length a q0 q1 q2 100
  have hcat99 : (fit_parabola3d_curve3 a q0 q1 q2 100 ++
      fit_parabola3d_curve3 b q2 q3 q4 100)[99]? = some q2 := by
    rw [List.getElem?_append_left (by rw [hlen]; norm_num)]
    exact hdown
  have hcat100 : (fit_parabola3d_curve3 a q0 q1 q2 100 ++
      fit_parabola3d_curve3 b q2 q3 q4 100)[100]? = some q2 := by
    rw [List.getElem?_append_right (by rw [hlen])]
    rw [hlen]
    exact hup
  refine ⟨hdown, hup, hcat99, hcat100, ?_, ?_, ?_⟩ <;>
    rw [hdown, hup] <;> norm_num

/-- Witness for C9 at a concrete 5-point serve with both interior chord
parameters 1/2. -/
theorem serve_segments_junction_witness :
    ((0 : ℚ) < 1 / 2 ∧ (1 : ℚ) / 2 < 1) ∧
    ((fit_parabola3d_curve3 (1 / 2) ((0 : ℚ), (0 : ℚ), (2 : ℚ)) (1, 1, 1)
        (2, 2, 0) 100)[99]? = some (2, 2, 0) ∧
      (fit_parabola3d_curve3 (1 / 2) ((2 : ℚ), (2 : ℚ), (0 : ℚ)) (3, 3, 1)
        (4, 4, 2) 100)[0]? = some (2, 2, 0) ∧
      (fit_parabola3d_curve3 (1 / 2) ((0 : ℚ), (0 : ℚ), (2 : ℚ)) (1, 1, 1)
          (2, 2, 0) 100 ++
        fit_parabola3d_curve3 (1 / 2) ((2 : ℚ), (2 : ℚ), (0 : ℚ)) (3, 3, 1)
          (4, 4, 2) 100)[99]? = some (2, 2, 0) ∧
      (fit_parabola3d_curve3 (1 / 2) ((0 : ℚ), (0 : ℚ), (2 : ℚ)) (1, 1, 1)
          (2, 2, 0) 100 ++
        fit_parabola3d_curve3 (1 / 2) ((2 : ℚ), (2 : ℚ), (0 : ℚ)) (3, 3, 1)
          (4, 4, 2) 100)[100]? = some (2, 2, 0) ∧
      |(((fit_parabola3d_curve3 (1 / 2) ((0 : ℚ), (0 : ℚ), (2 : ℚ)) (1, 1, 1)
            (2, 2, 0) 100)[99]?).getD (0, 0, 0)).1 -
        (((fit_parabola3d_curve3 (1 / 2) ((2 : ℚ), (2 : ℚ), (0 : ℚ)) (3, 3, 1)
            (4, 4, 2) 100)[0]?).getD (0, 0, 0)).1| ≤ 1 / 1000000000 ∧
      |(((fit_parabola3d_curve3 (1 / 2) ((0 : ℚ), (0 : ℚ), (2 : ℚ)) (1, 1, 1)
            (2, 2, 0) 100)[99]?).getD (0, 0, 0)).2.1 -
        (((fit_parabola3d_curve3 (1 / 2) ((2 : ℚ), (2 : ℚ), (0 : ℚ)) (3, 3, 1)
            (4, 4, 2) 100)[0]?).getD (0, 0, 0)).2.1| ≤ 1 / 1000000000 ∧
      |(((fit_parabola3d_curve3 (1 / 2) ((0 : ℚ), (0 : ℚ), (2 : ℚ)) (1, 1, 1)
            (2, 2, 0) 100)[99]?).getD (0, 0, 0)).2.2 -
        (((fit_parabola3d_curve3 (1 / 2) ((2 : ℚ), (2 : ℚ), (0 : ℚ)) (3, 3, 1)
            (4, 4, 2) 100)[0]?).getD (0, 0, 0)).2.2| ≤ 1 / 1000000000) :=
  ⟨⟨by norm_num, by norm_num⟩,
    serve_segments_junction ((0 : ℚ), (0 : ℚ), (2 : ℚ)) (1, 1, 1) (2, 2, 0)
      (3, 3, 1) (4, 4, 2) (1 / 2) (1 / 2) (by norm_num) (by norm_num)
      (by norm_num) (by norm_num)⟩

end TennisTracking
